import Mathlib

/-!
Shallow embedding of the attention-tracking core of the
Virtual-Learning-Platform repository, together with theorems settling
the specification claims about it.

Modelling conventions:
- `MemStorage` (src/server/storage.ts) keeps its four entity tables as
  Lean lists in insertion order.  The TypeScript class stores them in
  JavaScript `Map`s keyed by the generated id; since ids strictly
  increase, keys are never overwritten and entries are never deleted,
  `Map.values()` enumerates exactly in insertion order, so a list with
  append-on-create is a faithful model of each table.
- JavaScript numbers that only ever hold nonnegative integers (ids,
  counts, scores, millisecond timestamps) are modelled as `Nat`.
- Fallible awaits are modelled by an environment record carrying an
  `Except String` outcome for each network call a function performs.
-/

namespace VLP

/-- A stored user row (shared/schema.ts `users` table / storage.ts `User`). -/
structure User where
  id : Nat
  username : String
  email : String
  password : String
  deriving Repr, DecidableEq

/-- The insert shape for a user: all columns except the generated id. -/
structure InsertUser where
  username : String
  email : String
  password : String
  deriving Repr, DecidableEq

/-- A stored subject row (shared/schema.ts `subjects`). -/
structure Subject where
  id : Nat
  name : String
  code : String
  facultyName : String
  schedule : String
  deriving Repr, DecidableEq

/-- The insert shape for a subject. -/
structure InsertSubject where
  name : String
  code : String
  facultyName : String
  schedule : String
  deriving Repr, DecidableEq

/-- A stored enrollment row (shared/schema.ts `enrollments`). -/
structure Enrollment where
  id : Nat
  userId : Nat
  subjectId : Nat
  deriving Repr, DecidableEq

/-- The insert shape for an enrollment. -/
structure InsertEnrollment where
  userId : Nat
  subjectId : Nat
  deriving Repr, DecidableEq

/-- A stored tracking-result row (shared/schema.ts `trackingResults`).
Timestamps are modelled as `Nat` milliseconds. -/
structure TrackingResult where
  id : Nat
  userId : Nat
  subjectId : Nat
  sessionDate : Nat
  startTime : Nat
  endTime : Nat
  eyeMovementCount : Nat
  eyeBlinkCount : Nat
  postureChangeCount : Nat
  attentivenessScore : Nat
  sessionData : String
  deriving Repr, DecidableEq

/-- The insert shape for a tracking result. -/
structure InsertTrackingResult where
  userId : Nat
  subjectId : Nat
  sessionDate : Nat
  startTime : Nat
  endTime : Nat
  eyeMovementCount : Nat
  eyeBlinkCount : Nat
  postureChangeCount : Nat
  attentivenessScore : Nat
  sessionData : String
  deriving Repr, DecidableEq

/-- The in-memory store of storage.ts `MemStorage`: four tables in
insertion order plus the four id counters (`this.userId` etc., each
initialised to 1 and post-incremented on create). -/
structure MemStorage where
  users : List User
  subjects : List Subject
  enrollments : List Enrollment
  trackingResults : List TrackingResult
  userId : Nat
  subjectId : Nat
  enrollmentId : Nat
  trackingResultId : Nat
  deriving Repr, DecidableEq

/-- storage.ts `createUser`: assign `id = this.userId++`, store, return the row. -/
def createUser (s : MemStorage) (u : InsertUser) : User × MemStorage :=
  let id := s.userId
  let user : User := { id := id, username := u.username, email := u.email, password := u.password }
  (user, { s with users := s.users ++ [user], userId := id + 1 })

/-- storage.ts `createSubject`. -/
def createSubject (s : MemStorage) (x : InsertSubject) : Subject × MemStorage :=
  let id := s.subjectId
  let subject : Subject :=
    { id := id, name := x.name, code := x.code, facultyName := x.facultyName,
      schedule := x.schedule }
  (subject, { s with subjects := s.subjects ++ [subject], subjectId := id + 1 })

/-- storage.ts `enrollUserInSubject`. -/
def enrollUserInSubject (s : MemStorage) (e : InsertEnrollment) : Enrollment × MemStorage :=
  let id := s.enrollmentId
  let enrollment : Enrollment := { id := id, userId := e.userId, subjectId := e.subjectId }
  (enrollment, { s with enrollments := s.enrollments ++ [enrollment], enrollmentId := id + 1 })

/-- storage.ts `saveTrackingResult`. -/
def saveTrackingResult (s : MemStorage) (r : InsertTrackingResult) :
    TrackingResult × MemStorage :=
  let id := s.trackingResultId
  let result : TrackingResult :=
    { id := id, userId := r.userId, subjectId := r.subjectId, sessionDate := r.sessionDate,
      startTime := r.startTime, endTime := r.endTime, eyeMovementCount := r.eyeMovementCount,
      eyeBlinkCount := r.eyeBlinkCount, postureChangeCount := r.postureChangeCount,
      attentivenessScore := r.attentivenessScore, sessionData := r.sessionData }
  (result, { s with trackingResults := s.trackingResults ++ [result],
                    trackingResultId := id + 1 })

/-- storage.ts `getUser`: lookup by id in the users map. -/
def getUser (s : MemStorage) (id : Nat) : Option User :=
  s.users.find? (fun u => u.id == id)

/-- storage.ts `getUserByUsername`. -/
def getUserByUsername (s : MemStorage) (username : String) : Option User :=
  s.users.find? (fun u => u.username == username)

/-- storage.ts `getUserByEmail`. -/
def getUserByEmail (s : MemStorage) (email : String) : Option User :=
  s.users.find? (fun u => u.email == email)

/-- storage.ts `isUserEnrolledInSubject`: `Array.from(values()).some(...)`. -/
def isUserEnrolledInSubject (s : MemStorage) (userId subjectId : Nat) : Bool :=
  s.enrollments.any (fun e => e.userId == userId && e.subjectId == subjectId)

/-- storage.ts `getTrackingResultsByUserId`. -/
def getTrackingResultsByUserId (s : MemStorage) (userId : Nat) : List TrackingResult :=
  s.trackingResults.filter (fun r => r.userId == userId)

/-- storage.ts `getTrackingResultByUserAndSubject`:
`Array.from(values()).filter(...)` — filters the insertion-ordered table. -/
def getTrackingResultByUserAndSubject (s : MemStorage) (userId subjectId : Nat) :
    List TrackingResult :=
  s.trackingResults.filter (fun r => r.userId == userId && r.subjectId == subjectId)

/-- The `MemStorage` constructor state before seeding: empty maps, all
counters at 1. -/
def emptyStorage : MemStorage :=
  { users := [], subjects := [], enrollments := [], trackingResults := [],
    userId := 1, subjectId := 1, enrollmentId := 1, trackingResultId := 1 }

/-- The seeded store produced by the `MemStorage` constructor
(`seedUsers`, `seedSubjects`, `seedEnrollments` in storage.ts). -/
def initMemStorage : MemStorage :=
  let s := emptyStorage
  let s := (createUser s { username := "john_doe", email := "john@vle.edu", password := "student123" }).2
  let s := (createUser s { username := "emma_smith", email := "emma@vle.edu", password := "student456" }).2
  let s := (createUser s { username := "mike_jones", email := "mike@vle.edu", password := "student789" }).2
  let s := (createUser s { username := "sara_wilson", email := "sara@vle.edu", password := "student012" }).2
  let s := (createUser s { username := "alex_brown", email := "alex@vle.edu", password := "student345" }).2
  let s := (createSubject s { name := "Artificial Intelligence", code := "AI", facultyName := "Dr. Alan Turing", schedule := "Mon, Wed, Fri - 14:30-16:00" }).2
  let s := (createSubject s { name := "Database Management Systems", code := "DBMS", facultyName := "Dr. Edgar Codd", schedule := "Tue, Thu - 10:00-11:30" }).2
  let s := (createSubject s { name := "Operating Systems", code := "OS", facultyName := "Prof. Linus Torvalds", schedule := "Mon, Wed - 09:00-10:30" }).2
  let s := (createSubject s { name := "Computer Networks", code := "CN", facultyName := "Dr. Vint Cerf", schedule := "Tue, Thu - 13:00-14:30" }).2
  let s := (enrollUserInSubject s { userId := 1, subjectId := 1 }).2
  let s := (enrollUserInSubject s { userId := 1, subjectId := 2 }).2
  let s := (enrollUserInSubject s { userId := 2, subjectId := 1 }).2
  let s := (enrollUserInSubject s { userId := 3, subjectId := 2 }).2
  let s := (enrollUserInSubject s { userId := 3, subjectId := 3 }).2
  let s := (enrollUserInSubject s { userId := 4, subjectId := 4 }).2
  let s := (enrollUserInSubject s { userId := 5, subjectId := 1 }).2
  s

/-- A create operation on the repository, for stating invariants over
arbitrary operation sequences. -/
inductive Op
  | cUser (u : InsertUser)
  | cSubject (x : InsertSubject)
  | enroll (e : InsertEnrollment)
  | saveTR (r : InsertTrackingResult)
  deriving Repr

/-- Apply one create operation to the store (result row discarded). -/
def applyOp (s : MemStorage) : Op → MemStorage
  | Op.cUser u => (createUser s u).2
  | Op.cSubject x => (createSubject s x).2
  | Op.enroll e => (enrollUserInSubject s e).2
  | Op.saveTR r => (saveTrackingResult s r).2

/-- Run a sequence of create operations. -/
def runOps (s : MemStorage) (ops : List Op) : MemStorage :=
  ops.foldl applyOp s

/-- Store invariant: every stored id is below its counter, and the stored
ids of each entity type are strictly increasing in insertion order. -/
def storeInv (s : MemStorage) : Prop :=
  (∀ u ∈ s.users, u.id < s.userId) ∧
  (∀ x ∈ s.subjects, x.id < s.subjectId) ∧
  (∀ e ∈ s.enrollments, e.id < s.enrollmentId) ∧
  (∀ t ∈ s.trackingResults, t.id < s.trackingResultId) ∧
  (s.users.map User.id).Pairwise (· < ·) ∧
  (s.subjects.map Subject.id).Pairwise (· < ·) ∧
  (s.enrollments.map Enrollment.id).Pairwise (· < ·) ∧
  (s.trackingResults.map TrackingResult.id).Pairwise (· < ·)

/-- Scenario C sample: first session record for user 2 in subject 3. -/
def sampleResultA : InsertTrackingResult :=
  { userId := 2, subjectId := 3, sessionDate := 1000, startTime := 1000, endTime := 2000,
    eyeMovementCount := 12, eyeBlinkCount := 30, postureChangeCount := 4,
    attentivenessScore := 76, sessionData := "sessionA" }

/-- Scenario C sample: second session record for user 2 in subject 3. -/
def sampleResultB : InsertTrackingResult :=
  { userId := 2, subjectId := 3, sessionDate := 3000, startTime := 3000, endTime := 4000,
    eyeMovementCount := 20, eyeBlinkCount := 45, postureChangeCount := 7,
    attentivenessScore := 88, sessionData := "sessionB" }

/-- The seeded store after saving the first Scenario C record. -/
def stateAfterA : MemStorage := (saveTrackingResult initMemStorage sampleResultA).2

/-- An insert whose username duplicates seeded user 1 ("john_doe"). -/
def dupUser : InsertUser :=
  { username := "john_doe", email := "dup@vle.edu", password := "pw" }

/-- Live metrics snapshot (useAttentionTracking.tsx `TrackingMetrics`). -/
structure TrackingMetrics where
  eyeMovements : Nat
  eyeBlinks : Nat
  postureChanges : Nat
  attentivenessScore : Nat
  facialExpression : Option String
  deriving Repr, DecidableEq

/-- Facial-expression histogram carried in `sessionData` and read back in
Results.tsx as `sessionData.facial_expressions`. -/
structure FacialExpressions where
  neutral : Nat
  focused : Nat
  confused : Nat
  distracted : Nat
  deriving Repr, DecidableEq

/-- Posture-state histogram (`sessionData.posture_states`). -/
structure PostureStates where
  upright : Nat
  leaning_forward : Nat
  slouching : Nat
  away : Nat
  deriving Repr, DecidableEq

/-- The aggregate returned by `getTrackingResults` (lib/api.ts `TrackingData`). -/
structure TrackingData where
  eyeMovements : Nat
  eyeBlinks : Nat
  postureChanges : Nat
  attentivenessScore : Nat
  facialExpressions : FacialExpressions
  postureStates : PostureStates
  sessionData : String
  deriving Repr, DecidableEq

/-- Observable actions a run of a hook function performs. -/
inductive Ev
  | resetCalled
  | aggregateFetched
  | saveCalled
  | completionDispatched
  | toastStarted
  | toastStoppedShown
  | toastErrorShown
  deriving Repr, DecidableEq

/-- The hook's React state (useAttentionTracking.tsx `useState` cells). -/
structure HookState where
  isTracking : Bool
  metrics : Option TrackingMetrics
  error : Option String
  flaskServerAvailable : Bool
  deriving Repr, DecidableEq

/-- Environment for one `startTracking` run: the health-check result and
the outcome of the `resetTracking` call. -/
structure StartEnv where
  healthOk : Bool
  resetOutcome : Except String Unit

/-- Environment for one `stopTracking` run: the outcomes of
`getTrackingResults` (the aggregate fetch) and `saveTrackingResults`. -/
structure StopEnv where
  aggregateOutcome : Except String TrackingData
  saveOutcome : Except String Unit

/-- useAttentionTracking.tsx `startTracking`: checks the gateway health,
throws (caught in the same function) when unavailable, otherwise awaits
`resetTracking` and enters the tracking state.  Returns the new state, the
boolean result, and the observable actions performed. -/
def startTracking (env : StartEnv) (s : HookState) : HookState × Bool × List Ev :=
  let s0 := { s with flaskServerAvailable := env.healthOk }
  if env.healthOk = false then
    ({ s0 with error := some "Attention tracking server is not available. Please try again later." },
     false, [Ev.toastErrorShown])
  else
    match env.resetOutcome with
    | Except.error msg =>
        ({ s0 with error := some msg }, false, [Ev.resetCalled, Ev.toastErrorShown])
    | Except.ok _ =>
        ({ s0 with isTracking := true, error := none, metrics := none },
         true, [Ev.resetCalled, Ev.toastStarted])

/-- The `setIsTracking(false)` step of `stopTracking`, which the source
performs before `await getTrackingResults()` on the stop path. -/
def stopTrackingPreFetch (s : HookState) : HookState :=
  { s with isTracking := false }

/-- useAttentionTracking.tsx `stopTracking`: returns early when not
tracking; otherwise leaves the tracking state first, then fetches the
aggregate, saves it and dispatches the completion event; a thrown error is
caught, stored in `error` and surfaced as a destructive toast. -/
def stopTracking (env : StopEnv) (s : HookState) : HookState × List Ev :=
  if s.isTracking = false then (s, [])
  else
    let s1 := stopTrackingPreFetch s
    match env.aggregateOutcome with
    | Except.error msg =>
        ({ s1 with error := some msg }, [Ev.aggregateFetched, Ev.toastErrorShown])
    | Except.ok _ =>
        match env.saveOutcome with
        | Except.error msg =>
            ({ s1 with error := some msg },
             [Ev.aggregateFetched, Ev.saveCalled, Ev.toastErrorShown])
        | Except.ok _ =>
            (s1, [Ev.aggregateFetched, Ev.saveCalled, Ev.completionDispatched,
                  Ev.toastStoppedShown])

/-- Webcam actions issued by VideoPlayer.tsx. -/
inductive WebcamAction
  | start
  | stop
  deriving Repr, DecidableEq

/-- VideoPlayer.tsx effect on `[isTracking]`: `startWebcam()` when tracking
begins without the webcam in use, `stopWebcam()` when tracking ends while
the webcam is in use, nothing otherwise.  First argument: `isTracking`;
second: `usingWebcam`. -/
def webcamEffect : Bool → Bool → Option WebcamAction
  | true, false => some WebcamAction.start
  | false, true => some WebcamAction.stop
  | _, _ => none

/-- The per-frame response from the vision service as consumed by
`processVideoFrame`; each field may be absent, and a present value of 0
(or empty string) is falsy for the source's `||` defaulting. -/
structure FrameResponse where
  eye_movement_count : Option Nat
  blink_count : Option Nat
  posture_change_count : Option Nat
  attentiveness_score : Option Nat
  facial_expression : Option String
  deriving Repr, DecidableEq

/-- JavaScript `x || d` for a possibly-absent nonnegative number: absent,
and the falsy value 0, both become the default. -/
def orDefaultNat (x : Option Nat) (d : Nat) : Nat :=
  match x with
  | none => d
  | some v => if v = 0 then d else v

/-- JavaScript `x || d` for a possibly-absent string: absent, and the falsy
empty string, both become the default. -/
def orDefaultStr (x : Option String) (d : String) : String :=
  match x with
  | none => d
  | some v => if v = "" then d else v

/-- useAttentionTracking.tsx `processVideoFrame`: keeps the metrics
unchanged when not tracking, when the frame data is empty, or when
`processFrame` throws; otherwise replaces the metrics with the defaulted
response fields. -/
def processVideoFrame (isTracking : Bool) (frameData : String)
    (outcome : Except String FrameResponse) (m : Option TrackingMetrics) :
    Option TrackingMetrics :=
  if isTracking = false ∨ frameData = "" then m
  else
    match outcome with
    | Except.error _ => m
    | Except.ok r =>
        some { eyeMovements := orDefaultNat r.eye_movement_count 0,
               eyeBlinks := orDefaultNat r.blink_count 0,
               postureChanges := orDefaultNat r.posture_change_count 0,
               attentivenessScore := orDefaultNat r.attentiveness_score 85,
               facialExpression := some (orDefaultStr r.facial_expression "neutral") }

/-- JavaScript division, finite only for a nonzero denominator; `none`
models the non-finite results.  In the histogram uses below the numerator
is one category count and the denominator the sum of all categories, so a
zero denominator forces a zero numerator and `none` is precisely the `NaN`
of `0/0`. -/
def jsDiv (a b : ℚ) : Option ℚ :=
  if b = 0 then none else some (a / b)

/-- JavaScript `Math.round` on a finite number: floor of the value plus
one half. -/
def mathRound (q : ℚ) : ℤ := ⌊q + 1/2⌋

/-- A facial-expression category of the Results.tsx breakdown. -/
inductive FECat
  | neutral
  | focused
  | confused
  | distracted
  deriving Repr, DecidableEq

/-- The count of one facial-expression category. -/
def feCount (h : FacialExpressions) : FECat → Nat
  | FECat.neutral => h.neutral
  | FECat.focused => h.focused
  | FECat.confused => h.confused
  | FECat.distracted => h.distracted

/-- The denominator Results.tsx uses for expressions: the sum of all four
categories. -/
def feTotal (h : FacialExpressions) : Nat :=
  h.neutral + h.focused + h.confused + h.distracted

/-- Results.tsx per-category facial-expression percentage:
`Math.round(count / (neutral + focused + confused + distracted) * 100)`.
`none` models the `NaN` the source produces when the sum is zero. -/
def facialExpressionPercent (h : FacialExpressions) (c : FECat) : Option ℤ :=
  (jsDiv (feCount h c : ℚ) (feTotal h : ℚ)).map (fun q => mathRound (q * 100))

/-- A posture-state category of the Results.tsx breakdown. -/
inductive PSCat
  | upright
  | leaning_forward
  | slouching
  | away
  deriving Repr, DecidableEq

/-- The count of one posture-state category. -/
def psCount (h : PostureStates) : PSCat → Nat
  | PSCat.upright => h.upright
  | PSCat.leaning_forward => h.leaning_forward
  | PSCat.slouching => h.slouching
  | PSCat.away => h.away

/-- The denominator Results.tsx uses for posture states. -/
def psTotal (h : PostureStates) : Nat :=
  h.upright + h.leaning_forward + h.slouching + h.away

/-- Results.tsx per-category posture-state percentage; `none` models the
`NaN` produced when the sum is zero. -/
def postureStatePercent (h : PostureStates) (c : PSCat) : Option ℤ :=
  (jsDiv (psCount h c : ℚ) (psTotal h : ℚ)).map (fun q => mathRound (q * 100))

/-- An idle hook state (the initial `useState` values). -/
def idleState : HookState :=
  { isTracking := false, metrics := none, error := none, flaskServerAvailable := false }

/-- An active hook state mid-session. -/
def activeState : HookState :=
  { isTracking := true, metrics := none, error := none, flaskServerAvailable := true }

/-- A start environment whose health check reports the gateway down. -/
def downStartEnv : StartEnv := { healthOk := false, resetOutcome := Except.ok () }

/-- A stop environment whose aggregate fetch fails. -/
def failedFetchStopEnv : StopEnv :=
  { aggregateOutcome := Except.error "Failed to get tracking results: Internal Server Error",
    saveOutcome := Except.ok () }

/-- A frame response carrying only raw counts (no score), low activity. -/
def respLowActivity : FrameResponse :=
  { eye_movement_count := some 2, blink_count := some 3, posture_change_count := some 1,
    attentiveness_score := none, facial_expression := some "focused" }

/-- A frame response carrying only raw counts (no score), high activity. -/
def respHighActivity : FrameResponse :=
  { eye_movement_count := some 500, blink_count := some 400, posture_change_count := some 60,
    attentiveness_score := none, facial_expression := some "distracted" }

/-- A frame response whose service-reported attentiveness score is 0. -/
def respZeroScore : FrameResponse :=
  { eye_movement_count := some 10, blink_count := some 12, posture_change_count := some 2,
    attentiveness_score := some 0, facial_expression := some "neutral" }

/-- A frame response with a nonzero service-reported score. -/
def respScore42 : FrameResponse :=
  { eye_movement_count := some 10, blink_count := some 12, posture_change_count := some 2,
    attentiveness_score := some 42, facial_expression := none }

/-- A frame response with every field absent. -/
def respEmpty : FrameResponse :=
  { eye_movement_count := none, blink_count := none, posture_change_count := none,
    attentiveness_score := none, facial_expression := none }

theorem append_fresh {α : Type} (f : α → Nat) (l : List α) (n : Nat) (a : α)
    (hfa : f a = n) (hb : ∀ x ∈ l, f x < n) (hp : (l.map f).Pairwise (· < ·)) :
    (∀ x ∈ l ++ [a], f x < n + 1) ∧ ((l ++ [a]).map f).Pairwise (· < ·) := by
  constructor
  · intro x hx
    rcases List.mem_append.1 hx with h | h
    · exact Nat.lt_succ_of_lt (hb x h)
    · rw [List.mem_singleton.1 h, hfa]
      exact Nat.lt_succ_self n
  · rw [List.map_append, List.pairwise_append]
    refine ⟨hp, by simp, ?_⟩
    intro x hx y hy
    rcases List.mem_map.1 hx with ⟨z, hz, rfl⟩
    simp only [List.map_cons, List.map_nil, List.mem_singleton] at hy
    rw [hy, hfa]
    exact hb z hz

theorem storeInv_applyOp {s : MemStorage} (h : storeInv s) (op : Op) :
    storeInv (applyOp s op) := by
  obtain ⟨hu, hs, he, ht, pu, ps, pe, pt⟩ := h
  cases op with
  | cUser u =>
      obtain ⟨h1, h2⟩ := append_fresh User.id s.users s.userId
        { id := s.userId, username := u.username, email := u.email, password := u.password }
        rfl hu pu
      exact ⟨h1, hs, he, ht, h2, ps, pe, pt⟩
  | cSubject x =>
      obtain ⟨h1, h2⟩ := append_fresh Subject.id s.subjects s.subjectId
        { id := s.subjectId, name := x.name, code := x.code, facultyName := x.facultyName,
          schedule := x.schedule }
        rfl hs ps
      exact ⟨hu, h1, he, ht, pu, h2, pe, pt⟩
  | enroll e =>
      obtain ⟨h1, h2⟩ := append_fresh Enrollment.id s.enrollments s.enrollmentId
        { id := s.enrollmentId, userId := e.userId, subjectId := e.subjectId }
        rfl he pe
      exact ⟨hu, hs, h1, ht, pu, ps, h2, pt⟩
  | saveTR r =>
      obtain ⟨h1, h2⟩ := append_fresh TrackingResult.id s.trackingResults s.trackingResultId
        { id := s.trackingResultId, userId := r.userId, subjectId := r.subjectId,
          sessionDate := r.sessionDate, startTime := r.startTime, endTime := r.endTime,
          eyeMovementCount := r.eyeMovementCount, eyeBlinkCount := r.eyeBlinkCount,
          postureChangeCount := r.postureChangeCount,
          attentivenessScore := r.attentivenessScore, sessionData := r.sessionData }
        rfl ht pt
      exact ⟨hu, hs, he, h1, pu, ps, pe, h2⟩

theorem storeInv_runOps {s : MemStorage} (h : storeInv s) (ops : List Op) :
    storeInv (runOps s ops) := by
  induction ops generalizing s with
  | nil => exact h
  | cons op rest ih => exact ih (storeInv_applyOp h op)

theorem storeInv_init : storeInv initMemStorage := by
  unfold storeInv
  decide

end VLP

/-- C1: for every (userId, subjectId) pair with an Enrollment in the store,
`isUserEnrolledInSubject` returns true, and for every pair without one it
returns false. -/
theorem VLP.isUserEnrolledInSubject_iff_mem (s : VLP.MemStorage) (u b : Nat) :
    VLP.isUserEnrolledInSubject s u b = true ↔
      ∃ e ∈ s.enrollments, e.userId = u ∧ e.subjectId = b := by
  simp [VLP.isUserEnrolledInSubject, List.any_eq_true, Bool.and_eq_true, beq_iff_eq]

/-- C7: `getTrackingResultByUserAndSubject` returns the pair's records in
insertion (creation) order — a sublist of the insertion-ordered table holding
exactly the matching rows — and saving a further matching record appends it
at the end, so the "latest" selection (last element of the returned list)
picks the most recently saved record. -/
theorem VLP.getTrackingResultByUserAndSubject_order (s : VLP.MemStorage) (u b : Nat)
    (r : VLP.InsertTrackingResult) (hu : r.userId = u) (hb : r.subjectId = b) :
    List.Sublist (VLP.getTrackingResultByUserAndSubject s u b) s.trackingResults ∧
    (∀ t, t ∈ VLP.getTrackingResultByUserAndSubject s u b ↔
      (t ∈ s.trackingResults ∧ t.userId = u ∧ t.subjectId = b)) ∧
    VLP.getTrackingResultByUserAndSubject (VLP.saveTrackingResult s r).2 u b
      = VLP.getTrackingResultByUserAndSubject s u b ++ [(VLP.saveTrackingResult s r).1] ∧
    (VLP.getTrackingResultByUserAndSubject (VLP.saveTrackingResult s r).2 u b).getLast?
      = some (VLP.saveTrackingResult s r).1 := by
  have hmain : VLP.getTrackingResultByUserAndSubject (VLP.saveTrackingResult s r).2 u b
      = VLP.getTrackingResultByUserAndSubject s u b ++ [(VLP.saveTrackingResult s r).1] := by
    simp [VLP.getTrackingResultByUserAndSubject, VLP.saveTrackingResult,
      List.filter_append, hu, hb]
  refine ⟨List.filter_sublist _, ?_, hmain, ?_⟩
  · intro t
    simp [VLP.getTrackingResultByUserAndSubject, List.mem_filter, Bool.and_eq_true,
      beq_iff_eq, and_assoc]
  · rw [hmain]
    exact List.getLast?_concat _

/-- C7 witness: Scenario C — two sequential sessions for (user 2, subject 3);
the theorem applied after the first save, to the second save: both records
come back in creation order and the last element is the second one. -/
theorem VLP.getTrackingResultByUserAndSubject_order_witness :
    List.Sublist (VLP.getTrackingResultByUserAndSubject VLP.stateAfterA 2 3)
      VLP.stateAfterA.trackingResults ∧
    (∀ t, t ∈ VLP.getTrackingResultByUserAndSubject VLP.stateAfterA 2 3 ↔
      (t ∈ VLP.stateAfterA.trackingResults ∧ t.userId = 2 ∧ t.subjectId = 3)) ∧
    VLP.getTrackingResultByUserAndSubject
        (VLP.saveTrackingResult VLP.stateAfterA VLP.sampleResultB).2 2 3
      = VLP.getTrackingResultByUserAndSubject VLP.stateAfterA 2 3
          ++ [(VLP.saveTrackingResult VLP.stateAfterA VLP.sampleResultB).1] ∧
    (VLP.getTrackingResultByUserAndSubject
        (VLP.saveTrackingResult VLP.stateAfterA VLP.sampleResultB).2 2 3).getLast?
      = some (VLP.saveTrackingResult VLP.stateAfterA VLP.sampleResultB).1 :=
  VLP.getTrackingResultByUserAndSubject_order VLP.stateAfterA 2 3 VLP.sampleResultB rfl rfl

/-- C8: over any sequence of create operations applied to the seeded store,
the stored ids of every entity type are strictly increasing in creation
order (so ids are monotone and never reused), and each further create issues
an id strictly greater than every id previously issued for that type. -/
theorem VLP.created_ids_strictly_increasing (ops : List VLP.Op) :
    (((VLP.runOps VLP.initMemStorage ops).users.map VLP.User.id).Pairwise (· < ·)) ∧
    (((VLP.runOps VLP.initMemStorage ops).subjects.map VLP.Subject.id).Pairwise (· < ·)) ∧
    (((VLP.runOps VLP.initMemStorage ops).enrollments.map VLP.Enrollment.id).Pairwise (· < ·)) ∧
    (((VLP.runOps VLP.initMemStorage ops).trackingResults.map VLP.TrackingResult.id).Pairwise (· < ·)) ∧
    (∀ x : VLP.InsertUser, ∀ u ∈ (VLP.runOps VLP.initMemStorage ops).users,
      u.id < (VLP.createUser (VLP.runOps VLP.initMemStorage ops) x).1.id) ∧
    (∀ x : VLP.InsertSubject, ∀ c ∈ (VLP.runOps VLP.initMemStorage ops).subjects,
      c.id < (VLP.createSubject (VLP.runOps VLP.initMemStorage ops) x).1.id) ∧
    (∀ x : VLP.InsertEnrollment, ∀ e ∈ (VLP.runOps VLP.initMemStorage ops).enrollments,
      e.id < (VLP.enrollUserInSubject (VLP.runOps VLP.initMemStorage ops) x).1.id) ∧
    (∀ x : VLP.InsertTrackingResult, ∀ t ∈ (VLP.runOps VLP.initMemStorage ops).trackingResults,
      t.id < (VLP.saveTrackingResult (VLP.runOps VLP.initMemStorage ops) x).1.id) := by
  obtain ⟨hu, hs, he, ht, pu, ps, pe, pt⟩ := VLP.storeInv_runOps VLP.storeInv_init ops
  exact ⟨pu, ps, pe, pt, fun _ u h => hu u h, fun _ c h => hs c h, fun _ e h => he e h,
    fun _ t h => ht t h⟩

/-- C9 (code evaluated at the failing input): `createUser` performs no
username or email uniqueness check, so creating a user with the
already-seeded username "john_doe" stores a second, distinct user with the
same username — contradicting the schema's unique constraints. -/
theorem VLP.createUser_duplicate_username_stored :
    ∃ u1 ∈ (VLP.createUser VLP.initMemStorage VLP.dupUser).2.users,
      ∃ u2 ∈ (VLP.createUser VLP.initMemStorage VLP.dupUser).2.users,
        u1.id ≠ u2.id ∧ u1.username = u2.username := by
  decide

/-- C2: starting a session while the health check reports unavailable keeps
the session Idle: `startTracking` returns false, `isTracking` stays false,
`resetSession` is never called, an error is reported (error state set and a
destructive toast shown), no save happens (so no TrackingResult is
created), and the VideoPlayer effect never opens the camera. -/
theorem VLP.startTracking_unavailable_stays_idle (s : VLP.HookState) (env : VLP.StartEnv)
    (hIdle : s.isTracking = false) (hDown : env.healthOk = false) :
    (VLP.startTracking env s).2.1 = false ∧
    (VLP.startTracking env s).1.isTracking = false ∧
    VLP.Ev.resetCalled ∉ (VLP.startTracking env s).2.2 ∧
    (VLP.startTracking env s).1.error.isSome = true ∧
    VLP.Ev.toastErrorShown ∈ (VLP.startTracking env s).2.2 ∧
    VLP.Ev.saveCalled ∉ (VLP.startTracking env s).2.2 ∧
    (∀ w : Bool, VLP.webcamEffect (VLP.startTracking env s).1.isTracking w
        ≠ some VLP.WebcamAction.start) := by
  refine ⟨?_, ?_, ?_, ?_, ?_, ?_, ?_⟩
  · simp [VLP.startTracking, hDown]
  · simp [VLP.startTracking, hDown, hIdle]
  · simp [VLP.startTracking, hDown]
  · simp [VLP.startTracking, hDown]
  · simp [VLP.startTracking, hDown]
  · simp [VLP.startTracking, hDown]
  · intro w
    cases w <;> simp [VLP.startTracking, hDown, hIdle, VLP.webcamEffect]

/-- C2 witness: the theorem at the initial idle state with the gateway
down. -/
theorem VLP.startTracking_unavailable_stays_idle_witness :
    (VLP.startTracking VLP.downStartEnv VLP.idleState).2.1 = false ∧
    (VLP.startTracking VLP.downStartEnv VLP.idleState).1.isTracking = false ∧
    VLP.Ev.resetCalled ∉ (VLP.startTracking VLP.downStartEnv VLP.idleState).2.2 ∧
    (VLP.startTracking VLP.downStartEnv VLP.idleState).1.error.isSome = true ∧
    VLP.Ev.toastErrorShown ∈ (VLP.startTracking VLP.downStartEnv VLP.idleState).2.2 ∧
    VLP.Ev.saveCalled ∉ (VLP.startTracking VLP.downStartEnv VLP.idleState).2.2 ∧
    (∀ w : Bool,
      VLP.webcamEffect (VLP.startTracking VLP.downStartEnv VLP.idleState).1.isTracking w
        ≠ some VLP.WebcamAction.start) :=
  VLP.startTracking_unavailable_stays_idle VLP.idleState VLP.downStartEnv rfl rfl

/-- C3: stopping an Active session leaves the Active state on every exit
path — `isTracking` is set false already before the aggregate fetch is
awaited and stays false whatever the fetch and save outcomes — so the
VideoPlayer effect releases the webcam on every path. -/
theorem VLP.stopTracking_always_releases_camera (s : VLP.HookState) (env : VLP.StopEnv)
    (hActive : s.isTracking = true) :
    (VLP.stopTrackingPreFetch s).isTracking = false ∧
    (VLP.stopTracking env s).1.isTracking = false ∧
    VLP.webcamEffect (VLP.stopTracking env s).1.isTracking true
      = some VLP.WebcamAction.stop := by
  obtain ⟨agg, sv⟩ := env
  refine ⟨rfl, ?_, ?_⟩ <;>
    cases agg <;> cases sv <;>
      simp [VLP.stopTracking, VLP.stopTrackingPreFetch, hActive, VLP.webcamEffect]

/-- C3 witness: the theorem at an active state whose aggregate fetch
fails. -/
theorem VLP.stopTracking_always_releases_camera_witness :
    (VLP.stopTrackingPreFetch VLP.activeState).isTracking = false ∧
    (VLP.stopTracking VLP.failedFetchStopEnv VLP.activeState).1.isTracking = false ∧
    VLP.webcamEffect (VLP.stopTracking VLP.failedFetchStopEnv VLP.activeState).1.isTracking true
      = some VLP.WebcamAction.stop :=
  VLP.stopTracking_always_releases_camera VLP.activeState VLP.failedFetchStopEnv rfl

/-- C4: when the aggregate fetch fails at stop time, the session still
leaves the Active state, no save happens (no TrackingResult is persisted),
and the failure is surfaced to the user: the error state carries the
message and a destructive error toast is shown. -/
theorem VLP.stopTracking_fetch_failure_surfaced (s : VLP.HookState) (env : VLP.StopEnv)
    (msg : String) (hActive : s.isTracking = true)
    (hFail : env.aggregateOutcome = Except.error msg) :
    (VLP.stopTracking env s).1.isTracking = false ∧
    VLP.Ev.saveCalled ∉ (VLP.stopTracking env s).2 ∧
    (VLP.stopTracking env s).1.error = some msg ∧
    VLP.Ev.toastErrorShown ∈ (VLP.stopTracking env s).2 := by
  refine ⟨?_, ?_, ?_, ?_⟩ <;>
    simp [VLP.stopTracking, VLP.stopTrackingPreFetch, hActive, hFail]

/-- C4 witness: the theorem at an active state whose aggregate fetch
fails with a concrete message. -/
theorem VLP.stopTracking_fetch_failure_surfaced_witness :
    (VLP.stopTracking VLP.failedFetchStopEnv VLP.activeState).1.isTracking = false ∧
    VLP.Ev.saveCalled ∉ (VLP.stopTracking VLP.failedFetchStopEnv VLP.activeState).2 ∧
    (VLP.stopTracking VLP.failedFetchStopEnv VLP.activeState).1.error
      = some "Failed to get tracking results: Internal Server Error" ∧
    VLP.Ev.toastErrorShown ∈ (VLP.stopTracking VLP.failedFetchStopEnv VLP.activeState).2 :=
  VLP.stopTracking_fetch_failure_surfaced VLP.activeState VLP.failedFetchStopEnv
    "Failed to get tracking results: Internal Server Error" rfl rfl

/-- C5 (code evaluated at the failing input): for an all-zero histogram the
Results.tsx conversion divides zero by zero, producing `NaN` (modelled as
`none`) for every category, instead of the 0% the claim requires. -/
theorem VLP.allZero_histogram_percent_is_nan :
    (∀ c : VLP.FECat,
      VLP.facialExpressionPercent
        { neutral := 0, focused := 0, confused := 0, distracted := 0 } c = none) ∧
    (∀ c : VLP.PSCat,
      VLP.postureStatePercent
        { upright := 0, leaning_forward := 0, slouching := 0, away := 0 } c = none) := by
  constructor
  · intro c
    cases c <;> simp [VLP.facialExpressionPercent, VLP.jsDiv, VLP.feTotal, VLP.feCount]
  · intro c
    cases c <;> simp [VLP.postureStatePercent, VLP.jsDiv, VLP.psTotal, VLP.psCount]

/-- C6 counterexample: the core never computes the documented weighted
blend.  Two scoreless responses with very different raw counts both yield
the constant default 85, and a response whose service-reported score is 0
also yields 85 rather than 0 — so the service's own score is not used
whenever the service returns one, refuting the claim as stated. -/
theorem VLP.frame_score_no_blend_counterexample :
    (VLP.processVideoFrame true "frame" (Except.ok VLP.respLowActivity) none).map
        VLP.TrackingMetrics.attentivenessScore = some 85 ∧
    (VLP.processVideoFrame true "frame" (Except.ok VLP.respHighActivity) none).map
        VLP.TrackingMetrics.attentivenessScore = some 85 ∧
    (VLP.processVideoFrame true "frame" (Except.ok VLP.respZeroScore) none).map
        VLP.TrackingMetrics.attentivenessScore = some 85 ∧
    (85 : Nat) ≠ 0 := by
  refine ⟨?_, ?_, ?_, ?_⟩ <;> decide

/-- C6 amended: when the frame response carries a nonzero attentiveness
score, that score is used; when the score is absent or 0, the core
substitutes the constant default 85 — it does not compute the documented
70/15/10/5 weighted blend from the raw counts. -/
theorem VLP.frame_score_service_or_default (fd : String) (m : Option VLP.TrackingMetrics)
    (r : VLP.FrameResponse) (hfd : ¬ fd = "") :
    ((r.attentiveness_score = none ∨ r.attentiveness_score = some 0) →
      (VLP.processVideoFrame true fd (Except.ok r) m).map
          VLP.TrackingMetrics.attentivenessScore = some 85) ∧
    (∀ v, r.attentiveness_score = some v → ¬ v = 0 →
      (VLP.processVideoFrame true fd (Except.ok r) m).map
          VLP.TrackingMetrics.attentivenessScore = some v) := by
  constructor
  · rintro (h | h) <;> simp [VLP.processVideoFrame, hfd, VLP.orDefaultNat, h]
  · intro v hv hvne
    simp [VLP.processVideoFrame, hfd, VLP.orDefaultNat, hv, hvne]

/-- C6 amended-claim witness: the theorem at a response whose service score
is the nonzero 42. -/
theorem VLP.frame_score_service_or_default_witness :
    ((VLP.respScore42.attentiveness_score = none ∨
        VLP.respScore42.attentiveness_score = some 0) →
      (VLP.processVideoFrame true "frame" (Except.ok VLP.respScore42) none).map
          VLP.TrackingMetrics.attentivenessScore = some 85) ∧
    (∀ v, VLP.respScore42.attentiveness_score = some v → ¬ v = 0 →
      (VLP.processVideoFrame true "frame" (Except.ok VLP.respScore42) none).map
          VLP.TrackingMetrics.attentivenessScore = some v) :=
  VLP.frame_score_service_or_default "frame" none VLP.respScore42 (by decide)

/-- C10: during an Active session with nonempty frame data, a successful
frame response is applied with falsy-field defaulting: a missing or zero
attentiveness score becomes 85 (in particular a service-reported score of
exactly 0 is displayed as 85, not 0), a missing facial expression becomes
"neutral", and missing counts become 0. -/
theorem VLP.processVideoFrame_falsy_defaults (fd : String) (m : Option VLP.TrackingMetrics)
    (r : VLP.FrameResponse) (hfd : ¬ fd = "") :
    ∃ tm, VLP.processVideoFrame true fd (Except.ok r) m = some tm ∧
      (r.attentiveness_score = none → tm.attentivenessScore = 85) ∧
      (r.attentiveness_score = some 0 → tm.attentivenessScore = 85) ∧
      (r.facial_expression = none → tm.facialExpression = some "neutral") ∧
      (r.eye_movement_count = none → tm.eyeMovements = 0) ∧
      (r.blink_count = none → tm.eyeBlinks = 0) ∧
      (r.posture_change_count = none → tm.postureChanges = 0) := by
  refine ⟨{ eyeMovements := VLP.orDefaultNat r.eye_movement_count 0,
            eyeBlinks := VLP.orDefaultNat r.blink_count 0,
            postureChanges := VLP.orDefaultNat r.posture_change_count 0,
            attentivenessScore := VLP.orDefaultNat r.attentiveness_score 85,
            facialExpression := some (VLP.orDefaultStr r.facial_expression "neutral") },
          ?_, ?_, ?_, ?_, ?_, ?_, ?_⟩
  · simp [VLP.processVideoFrame, hfd]
  · intro h; simp [VLP.orDefaultNat, h]
  · intro h; simp [VLP.orDefaultNat, h]
  · intro h; simp [VLP.orDefaultStr, h]
  · intro h; simp [VLP.orDefaultNat, h]
  · intro h; simp [VLP.orDefaultNat, h]
  · intro h; simp [VLP.orDefaultNat, h]

/-- C10 witness: the theorem at a response with every field absent — all
defaults fire: score 85, expression "neutral", counts 0. -/
theorem VLP.processVideoFrame_falsy_defaults_witness :
    ∃ tm, VLP.processVideoFrame true "frame" (Except.ok VLP.respEmpty) none = some tm ∧
      (VLP.respEmpty.attentiveness_score = none → tm.attentivenessScore = 85) ∧
      (VLP.respEmpty.attentiveness_score = some 0 → tm.attentivenessScore = 85) ∧
      (VLP.respEmpty.facial_expression = none → tm.facialExpression = some "neutral") ∧
      (VLP.respEmpty.eye_movement_count = none → tm.eyeMovements = 0) ∧
      (VLP.respEmpty.blink_count = none → tm.eyeBlinks = 0) ∧
      (VLP.respEmpty.posture_change_count = none → tm.postureChanges = 0) :=
  VLP.processVideoFrame_falsy_defaults "frame" none VLP.respEmpty (by decide)
